import Mathlib

/-!
Shallow embedding of the weather-service core of the repository
(`app/services/weather_service.py` together with the data models of
`app/models/weather.py`).  The upstream HTTP client is replaced by the
payload it would return: each fetch operation is modelled as a pure
function from the (mocked) upstream payload to `Except HTTPException`
of the value the Python function returns, exactly mirroring the parsing,
status-code check, enrichment and envelope construction of the source.
-/

namespace BecoLab

/-- Embeds `CATEGORY_METADATA` (weather_service.py lines 17-40): category
code mapped to (display name, unit). -/
def CATEGORY_METADATA : List (String × String × String) :=
  [("T1H", "기온", "℃"),
   ("RN1", "1시간 강수량", "mm"),
   ("UUU", "동서바람성분", "m/s"),
   ("VVV", "남북바람성분", "m/s"),
   ("REH", "습도", "%"),
   ("PTY", "강수형태", "코드값"),
   ("VEC", "풍향", "deg"),
   ("WSD", "풍속", "m/s"),
   ("SKY", "하늘상태", "코드값"),
   ("LGT", "낙뢰", "kA"),
   ("TMP", "기온", "℃"),
   ("POP", "강수확률", "%"),
   ("WAV", "파고", "M"),
   ("PCP", "강수량", "mm"),
   ("SNO", "적설량", "cm"),
   ("TMN", "최저기온", "℃"),
   ("TMX", "최고기온", "℃")]

/-- Embeds `CODE_VALUE_MAPPINGS` (weather_service.py lines 43-56): enum-valued
category codes with their raw-value decoding tables. -/
def CODE_VALUE_MAPPINGS : List (String × List (String × String)) :=
  [("SKY", [("1", "맑음"), ("3", "구름많음"), ("4", "흐림")]),
   ("PTY", [("0", "없음"), ("1", "비"), ("2", "비/눈"), ("3", "눈"), ("4", "소나기")])]

/-- Embeds `WEATHER_CATEGORY_MAP` (weather_service.py line 59): the dict
comprehension filtering `CATEGORY_METADATA` to the eight observation codes and
keeping only the name. -/
def WEATHER_CATEGORY_MAP : List (String × String) :=
  (CATEGORY_METADATA.filter
      (fun p => ["T1H", "RN1", "UUU", "VVV", "REH", "PTY", "VEC", "WSD"].contains p.1)).map
    (fun p => (p.1, p.2.1))

/-- Embeds the `value_description` computation (weather_service.py lines
148-151 / 313-316 / 483-486): `None` unless the category is a key of
`CODE_VALUE_MAPPINGS`, then `.get(value)` in that category's table. -/
def valueDescriptionFor (category value : String) : Option String :=
  match List.lookup category CODE_VALUE_MAPPINGS with
  | some tbl => List.lookup value tbl
  | none => none

/-- Embeds `fastapi.HTTPException` as raised by the service: a status code and
a detail message. -/
structure HTTPException where
  status_code : Nat
  detail : String
deriving Repr, DecidableEq

/-- Embeds `WeatherItem` (app/models/weather.py lines 27-37). -/
structure WeatherItem where
  category : String
  categoryName : Option String
  obsrValue : String
  valueDescription : Option String
  unit : Option String
  baseDate : String
  baseTime : String
  nx : Int
  ny : Int
deriving Repr, DecidableEq

/-- Embeds `ForecastItem` (app/models/weather.py lines 40-52). -/
structure ForecastItem where
  category : String
  categoryName : Option String
  fcstValue : String
  valueDescription : Option String
  unit : Option String
  fcstDate : String
  fcstTime : String
  baseDate : String
  baseTime : String
  nx : Int
  ny : Int
deriving Repr, DecidableEq

/-- Embeds `WeatherResponse` (app/models/weather.py lines 55-63). -/
structure WeatherResponse where
  result_code : String
  result_message : String
  num_of_rows : Int
  page_no : Int
  total_count : Int
  items : List WeatherItem := []
  forecast_items : Option (List ForecastItem) := none
deriving Repr, DecidableEq

/-- The `raw_data` dict built by `get_weather_summary` (weather_service.py
lines 225-234): total count plus, per category in insertion order, the pair
(value, description). -/
structure SummaryRawData where
  total_count : Int
  categories : List (String × String × String)
deriving Repr, DecidableEq

/-- Embeds `WeatherSummary` (app/models/weather.py lines 66-76). -/
structure WeatherSummary where
  location : String
  base_date : String
  base_time : String
  temperature : Option String
  humidity : Option String
  precipitation : Option String
  wind_direction : Option String
  wind_speed : Option String
  raw_data : Option SummaryRawData
deriving Repr, DecidableEq

/-- A well-formed raw upstream observation item: the keys the upstream sends
for `getUltraSrtNcst` and that `WeatherItem(**item_data, ...)` requires. -/
structure RawObsItem where
  category : String
  obsrValue : String
  baseDate : String
  baseTime : String
  nx : Int
  ny : Int
deriving Repr, DecidableEq

/-- A well-formed raw upstream forecast item (for `getUltraSrtFcst` and
`getVilageFcst`), as required by `ForecastItem(**item_data, ...)`. -/
structure RawFcstItem where
  category : String
  fcstValue : String
  fcstDate : String
  fcstTime : String
  baseDate : String
  baseTime : String
  nx : Int
  ny : Int
deriving Repr, DecidableEq

/-- The `response.header` object; each field may be absent, matching
`header.get("resultCode", "")` / `header.get("resultMsg", "")`. -/
structure UpstreamHeader where
  resultCode : Option String := none
  resultMsg : Option String := none
deriving Repr, DecidableEq

/-- The `response.body.items` object; the `item` list may be absent, matching
`.get("item", [])`. -/
structure UpstreamItems (α : Type) where
  item : Option (List α) := none
deriving Repr, DecidableEq

/-- The `response.body` object; every field may be absent, matching the
defaulted `.get` calls of the source. -/
structure UpstreamBody (α : Type) where
  numOfRows : Option Int := none
  pageNo : Option Int := none
  totalCount : Option Int := none
  items : Option (UpstreamItems α) := none
deriving Repr, DecidableEq

/-- The `response` object of the upstream JSON. -/
structure UpstreamResponse (α : Type) where
  header : Option UpstreamHeader := none
  body : Option (UpstreamBody α) := none
deriving Repr, DecidableEq

/-- The whole parsed upstream JSON payload; `response` may be absent, matching
`data.get("response", {})`. -/
structure UpstreamPayload (α : Type) where
  response : Option (UpstreamResponse α) := none
deriving Repr, DecidableEq

/-- `header.get("resultCode", "")` after `data.get("response", {})` and
`response_data.get("header", {})` (weather_service.py lines 125-129). -/
def UpstreamPayload.resultCode (p : UpstreamPayload α) : String :=
  ((p.response.bind UpstreamResponse.header).bind UpstreamHeader.resultCode).getD ""

/-- `header.get("resultMsg", "")` (weather_service.py line 130). -/
def UpstreamPayload.resultMsg (p : UpstreamPayload α) : String :=
  ((p.response.bind UpstreamResponse.header).bind UpstreamHeader.resultMsg).getD ""

/-- `response_data.get("body", {})` (weather_service.py line 127). -/
def UpstreamPayload.bodyOf (p : UpstreamPayload α) : Option (UpstreamBody α) :=
  p.response.bind UpstreamResponse.body

/-- `body.get("items", {}).get("item", [])` (weather_service.py line 141):
a missing `items` object or a missing `item` list yields the empty list. -/
def UpstreamPayload.itemsData (p : UpstreamPayload α) : List α :=
  (((p.bodyOf).bind UpstreamBody.items).bind UpstreamItems.item).getD []

/-- The detail string `f"기상청 API 오류: {result_msg}"` of the 502 error
(weather_service.py lines 135-138). -/
def apiErrorDetail (msg : String) : String := "기상청 API 오류: " ++ msg

/-- Enrichment of one raw observation item (weather_service.py lines 143-159):
metadata lookup with absent name/unit on a miss, enum decoding, and
construction of the `WeatherItem`. -/
def enrichObsItem (r : RawObsItem) : WeatherItem :=
  let metadata := List.lookup r.category CATEGORY_METADATA
  { category := r.category
    categoryName := metadata.map Prod.fst
    obsrValue := r.obsrValue
    valueDescription := valueDescriptionFor r.category r.obsrValue
    unit := metadata.map Prod.snd
    baseDate := r.baseDate
    baseTime := r.baseTime
    nx := r.nx
    ny := r.ny }

/-- Enrichment of one raw forecast item (weather_service.py lines 308-324 and
478-494), decoding against `fcstValue`. -/
def enrichFcstItem (r : RawFcstItem) : ForecastItem :=
  let metadata := List.lookup r.category CATEGORY_METADATA
  { category := r.category
    categoryName := metadata.map Prod.fst
    fcstValue := r.fcstValue
    valueDescription := valueDescriptionFor r.category r.fcstValue
    unit := metadata.map Prod.snd
    fcstDate := r.fcstDate
    fcstTime := r.fcstTime
    baseDate := r.baseDate
    baseTime := r.baseTime
    nx := r.nx
    ny := r.ny }

/-- Embeds `WeatherService.get_ultra_short_term_ncst` (weather_service.py
lines 120-168) applied to the payload the mocked upstream returns: status
check, 502 on a non-"00" result code, item extraction and enrichment, and
envelope construction with the defaulted paging fields. -/
def get_ultra_short_term_ncst (p : UpstreamPayload RawObsItem) :
    Except HTTPException WeatherResponse :=
  let result_code := p.resultCode
  let result_msg := p.resultMsg
  if result_code ≠ "00" then
    .error { status_code := 502, detail := apiErrorDetail result_msg }
  else
    .ok { result_code := result_code
          result_message := result_msg
          num_of_rows := ((p.bodyOf).bind UpstreamBody.numOfRows).getD 0
          page_no := ((p.bodyOf).bind UpstreamBody.pageNo).getD 1
          total_count := ((p.bodyOf).bind UpstreamBody.totalCount).getD 0
          items := p.itemsData.map enrichObsItem }

/-- Embeds `WeatherService.get_ultra_short_term_fcst` (weather_service.py
lines 285-326) applied to the mocked payload: same status check, returning
the enriched `ForecastItem` list. -/
def get_ultra_short_term_fcst (p : UpstreamPayload RawFcstItem) :
    Except HTTPException (List ForecastItem) :=
  if p.resultCode ≠ "00" then
    .error { status_code := 502, detail := apiErrorDetail p.resultMsg }
  else
    .ok (p.itemsData.map enrichFcstItem)

/-- Embeds `WeatherService.get_short_term_fcst` (weather_service.py lines
455-496) applied to the mocked payload: identical normalization to the
short-range forecast, for the 3-day forecast endpoint. -/
def get_short_term_fcst (p : UpstreamPayload RawFcstItem) :
    Except HTTPException (List ForecastItem) :=
  if p.resultCode ≠ "00" then
    .error { status_code := 502, detail := apiErrorDetail p.resultMsg }
  else
    .ok (p.itemsData.map enrichFcstItem)

/-- The current wall-clock moment as the service reads it: the date string
`datetime.now().strftime("%Y%m%d")` and the hour `datetime.now().hour`. -/
structure Clock where
  date : String
  hour : Nat
deriving Repr, DecidableEq

/-- The `f"{hour:02d}"` two-digit formatting of an hour. -/
def pad2 (n : Nat) : String :=
  if n < 10 then "0" ++ toString n else toString n

/-- Default base date/time for the current-observation endpoint
(weather_service.py lines 100-107): today's date and the current hour
truncated to `HH00`. -/
def resolve_ncst_base (clock : Clock) (base_date base_time : Option String) :
    String × String :=
  (base_date.getD clock.date, base_time.getD (pad2 clock.hour ++ "00"))

/-- Default base date/time for the short-range forecast endpoint
(weather_service.py lines 265-272): today's date and the current hour with
minute fixed to `30`. -/
def resolve_ultra_fcst_base (clock : Clock) (base_date base_time : Option String) :
    String × String :=
  (base_date.getD clock.date, base_time.getD (pad2 clock.hour ++ "30"))

/-- The 8-slot selection of `get_short_term_fcst` (weather_service.py lines
424-442). -/
def vilage_slot (hour : Nat) : String :=
  if hour < 2 then "2300"
  else if hour < 5 then "0200"
  else if hour < 8 then "0500"
  else if hour < 11 then "0800"
  else if hour < 14 then "1100"
  else if hour < 17 then "1400"
  else if hour < 20 then "1700"
  else if hour < 23 then "2000"
  else "2300"

/-- Default base date/time for the 3-day forecast endpoint (weather_service.py
lines 415-442): today's date — never decremented — and the 8-slot time. -/
def resolve_vilage_base (clock : Clock) (base_date base_time : Option String) :
    String × String :=
  (base_date.getD clock.date, base_time.getD (vilage_slot clock.hour))

/-- The pair of (base_date, base_time) parameters the combined query issues to
its two sub-fetches (weather_service.py lines 363-379): it forwards the same
caller-supplied `base_date`/`base_time` to both, each resolving its defaults
against the same current moment. -/
def combined_issued_bases (clock : Clock) (base_date base_time : Option String) :
    (String × String) × (String × String) :=
  (resolve_ncst_base clock base_date base_time,
   resolve_ultra_fcst_base clock base_date base_time)

/-- `asyncio.gather(ncst_task, fcst_task)` (weather_service.py line 382):
results are delivered in argument order; the first exception raised in
completion order propagates.  `order = false` means the observation task
settles first, `order = true` the forecast task. -/
def gatherResult (order : Bool) (a : Except HTTPException α)
    (b : Except HTTPException β) : Except HTTPException (α × β) :=
  match order with
  | false =>
    match a with
    | .error e => .error e
    | .ok x => match b with
      | .error e => .error e
      | .ok y => .ok (x, y)
  | true =>
    match b with
    | .error e => .error e
    | .ok y => match a with
      | .error e => .error e
      | .ok x => .ok (x, y)

/-- Embeds `WeatherService.get_combined_weather` (weather_service.py lines
363-387) applied to the two mocked payloads: gather both sub-results (in
either completion order), then attach the forecast list onto the observation
envelope's `forecast_items` field. -/
def get_combined_weather (order : Bool) (p : UpstreamPayload RawObsItem)
    (q : UpstreamPayload RawFcstItem) : Except HTTPException WeatherResponse :=
  match gatherResult order (get_ultra_short_term_ncst p) (get_ultra_short_term_fcst q) with
  | .error e => .error e
  | .ok (r, f) => .ok { r with forecast_items := some f }

/-- One `weather_data[category] = item.obsrValue` assignment on a Python dict:
overwrite in place when the key exists, append otherwise. -/
def dictInsert : List (String × String) → String → String → List (String × String)
  | [], k, v => [(k, v)]
  | (k', v') :: rest, k, v =>
    if k' = k then (k', v) :: rest else (k', v') :: dictInsert rest k v

/-- The `weather_data` dict of `get_weather_summary` (weather_service.py lines
206-209): fold the items into a dict keyed by category, later items
overwriting earlier ones. -/
def weatherData (items : List WeatherItem) : List (String × String) :=
  items.foldl (fun d it => dictInsert d it.category it.obsrValue) []

/-- Python `a or b` on an optional string: `b` when `a` is `None` or empty. -/
def pyOrStr (a : Option String) (b : String) : String :=
  match a with
  | some s => if s = "" then b else s
  | none => b

/-- Embeds `WeatherService.get_weather_summary` (weather_service.py lines
179-237) with the observation fetch applied to the mocked payload: reduce the
items to a category dict, take the first item's base date/time (falling back
to the caller-supplied or current values when there are no items), and build
the summary with the five primary fields and the annotated raw category map. -/
def get_weather_summary (nx ny : Int) (base_date base_time : Option String)
    (clock : Clock) (p : UpstreamPayload RawObsItem) :
    Except HTTPException WeatherSummary :=
  match get_ultra_short_term_ncst p with
  | .error e => .error e
  | .ok resp =>
    let wd := weatherData resp.items
    let used_base_date := match resp.items.head? with
      | some it => it.baseDate
      | none => pyOrStr base_date clock.date
    let used_base_time := match resp.items.head? with
      | some it => it.baseTime
      | none => pyOrStr base_time (pad2 clock.hour ++ "00")
    .ok { location := "nx:" ++ toString nx ++ ", ny:" ++ toString ny
          base_date := used_base_date
          base_time := used_base_time
          temperature := List.lookup "T1H" wd
          humidity := List.lookup "REH" wd
          precipitation := List.lookup "RN1" wd
          wind_direction := List.lookup "VEC" wd
          wind_speed := List.lookup "WSD" wd
          raw_data := some
            { total_count := resp.total_count
              categories := wd.map
                (fun kv => (kv.1, kv.2, (List.lookup kv.1 WEATHER_CATEGORY_MAP).getD kv.1)) } }

/-! ### Concrete payloads used as witnesses -/

/-- A failing upstream header (`resultCode` "03"). -/
def errHeader : UpstreamHeader := { resultCode := some "03", resultMsg := some "NO_DATA" }

/-- A failing observation payload. -/
def errObsPayload : UpstreamPayload RawObsItem := { response := some { header := some errHeader } }

/-- A failing forecast payload. -/
def errFcstPayload : UpstreamPayload RawFcstItem := { response := some { header := some errHeader } }

/-- A successful upstream header. -/
def okHeader : UpstreamHeader := { resultCode := some "00", resultMsg := some "NORMAL_SERVICE" }

/-- A successful observation payload whose body has no `items` object. -/
def emptyObsPayload : UpstreamPayload RawObsItem :=
  { response := some { header := some okHeader, body := some {} } }

/-- A successful forecast payload whose `items` object has no `item` list. -/
def emptyFcstPayload : UpstreamPayload RawFcstItem :=
  { response := some { header := some okHeader, body := some { items := some {} } } }

/-- An observation item for the temperature category. -/
def obsItemT1H : RawObsItem :=
  { category := "T1H", obsrValue := "15.0", baseDate := "20231110", baseTime := "0600",
    nx := 55, ny := 127 }

/-- An observation item whose category code is not in the metadata table. -/
def obsItemUnknown : RawObsItem :=
  { category := "ZZZ", obsrValue := "1", baseDate := "20231110", baseTime := "0600",
    nx := 55, ny := 127 }

/-- A successful observation payload carrying two items, one with a known and
one with an unknown category code. -/
def twoItemObsPayload : UpstreamPayload RawObsItem :=
  { response := some
      { header := some okHeader
        body := some
          { numOfRows := some 2
            pageNo := some 1
            totalCount := some 2
            items := some { item := some [obsItemT1H, obsItemUnknown] } } } }

/-- A forecast item for the sky-state category. -/
def fcstItemSKY : RawFcstItem :=
  { category := "SKY", fcstValue := "1", fcstDate := "20231110", fcstTime := "0700",
    baseDate := "20231110", baseTime := "0630", nx := 55, ny := 127 }

/-- A successful observation payload with eight items. -/
def obs8Payload : UpstreamPayload RawObsItem :=
  { response := some
      { header := some okHeader
        body := some
          { numOfRows := some 8
            pageNo := some 1
            totalCount := some 8
            items := some { item := some (List.replicate 8 obsItemT1H) } } } }

/-- A successful forecast payload with twelve items. -/
def fcst12Payload : UpstreamPayload RawFcstItem :=
  { response := some
      { header := some okHeader
        body := some
          { numOfRows := some 12
            pageNo := some 1
            totalCount := some 12
            items := some { item := some (List.replicate 12 fcstItemSKY) } } } }

/-- The envelope `obs8Payload` normalizes to. -/
def obs8Response : WeatherResponse :=
  { result_code := "00", result_message := "NORMAL_SERVICE",
    num_of_rows := 8, page_no := 1, total_count := 8,
    items := List.map enrichObsItem (List.replicate 8 obsItemT1H) }

/-! ### Shared lemmas -/

/-- On a successful result code, the observation fetch returns exactly the
envelope built from the defaulted body fields and the enriched items. -/
theorem ncst_ok_form (p : UpstreamPayload RawObsItem) (h : p.resultCode = "00") :
    get_ultra_short_term_ncst p = .ok
      { result_code := "00", result_message := p.resultMsg,
        num_of_rows := ((p.bodyOf).bind UpstreamBody.numOfRows).getD 0,
        page_no := ((p.bodyOf).bind UpstreamBody.pageNo).getD 1,
        total_count := ((p.bodyOf).bind UpstreamBody.totalCount).getD 0,
        items := p.itemsData.map enrichObsItem } := by
  simp [get_ultra_short_term_ncst, h]

/-- `List.lookup` hits exactly the pairs of the list. -/
theorem mem_of_lookup_eq_some {β : Type} {l : List (String × β)} {k : String} {b : β}
    (h : List.lookup k l = some b) : (k, b) ∈ l := by
  rcases List.lookup_eq_some_iff.mp h with ⟨l₁, l₂, rfl, h₁⟩
  simp

/-! ### Claims -/

/-- C1: any upstream payload whose `response.header.resultCode` is not `"00"`
makes each of the three fetch operations fail with a 502 gateway error whose
detail carries the upstream `resultMsg`; no envelope or item list is
returned. -/
theorem c1_upstream_error_propagates
    (p : UpstreamPayload RawObsItem) (q r : UpstreamPayload RawFcstItem)
    (hp : p.resultCode ≠ "00") (hq : q.resultCode ≠ "00") (hr : r.resultCode ≠ "00") :
    get_ultra_short_term_ncst p = .error ⟨502, apiErrorDetail p.resultMsg⟩ ∧
    get_ultra_short_term_fcst q = .error ⟨502, apiErrorDetail q.resultMsg⟩ ∧
    get_short_term_fcst r = .error ⟨502, apiErrorDetail r.resultMsg⟩ := by
  refine ⟨?_, ?_, ?_⟩ <;>
    simp [get_ultra_short_term_ncst, get_ultra_short_term_fcst, get_short_term_fcst,
      hp, hq, hr]

/-- Witness for C1 at a concrete failing payload (`resultCode` "03"). -/
theorem c1_upstream_error_propagates_witness :
    get_ultra_short_term_ncst errObsPayload =
      .error ⟨502, apiErrorDetail errObsPayload.resultMsg⟩ ∧
    get_ultra_short_term_fcst errFcstPayload =
      .error ⟨502, apiErrorDetail errFcstPayload.resultMsg⟩ ∧
    get_short_term_fcst errFcstPayload =
      .error ⟨502, apiErrorDetail errFcstPayload.resultMsg⟩ :=
  c1_upstream_error_propagates errObsPayload errFcstPayload errFcstPayload
    (by decide) (by decide) (by decide)

/-- C2: on a successful (`resultCode` "00") payload with N raw items, the
current-observation fetch returns an envelope holding exactly the N enriched
items in order, and an item's `categoryName` and `unit` are present if and
only if its category code is a key of `CATEGORY_METADATA`. -/
theorem c2_ncst_normalizes_all_items (p : UpstreamPayload RawObsItem)
    (h : p.resultCode = "00") :
    ∃ r, get_ultra_short_term_ncst p = .ok r ∧
      r.items = p.itemsData.map enrichObsItem ∧
      r.items.length = p.itemsData.length ∧
      ∀ it ∈ r.items,
        (it.categoryName.isSome ↔ (List.lookup it.category CATEGORY_METADATA).isSome) ∧
        (it.unit.isSome ↔ (List.lookup it.category CATEGORY_METADATA).isSome) := by
  refine ⟨_, ncst_ok_form p h, rfl, by simp, ?_⟩
  intro it hit
  rcases List.mem_map.mp hit with ⟨raw, _, rfl⟩
  cases hm : List.lookup raw.category CATEGORY_METADATA with
  | none => simp [enrichObsItem, hm]
  | some m => simp [enrichObsItem, hm]

/-- Witness for C2 at a concrete two-item payload (codes "T1H" and "ZZZ"). -/
theorem c2_ncst_normalizes_all_items_witness :
    ∃ r, get_ultra_short_term_ncst twoItemObsPayload = .ok r ∧
      r.items = twoItemObsPayload.itemsData.map enrichObsItem ∧
      r.items.length = twoItemObsPayload.itemsData.length ∧
      ∀ it ∈ r.items,
        (it.categoryName.isSome ↔ (List.lookup it.category CATEGORY_METADATA).isSome) ∧
        (it.unit.isSome ↔ (List.lookup it.category CATEGORY_METADATA).isSome) :=
  c2_ncst_normalizes_all_items twoItemObsPayload rfl

/-- C3: when the current hour is before 0200 and date/time are unspecified,
the 3-day forecast resolves the base time to "2300" while the base date stays
the current day's date (it is not decremented). -/
theorem c3_vilage_before_0200 (clock : Clock) (h : clock.hour < 2) :
    resolve_vilage_base clock none none = (clock.date, "2300") := by
  simp [resolve_vilage_base, vilage_slot, h]

/-- Witness for C3 at hour 1 of 2024-01-01. -/
theorem c3_vilage_before_0200_witness :
    resolve_vilage_base ⟨"20240101", 1⟩ none none = ("20240101", "2300") :=
  c3_vilage_before_0200 ⟨"20240101", 1⟩ (by decide)

/-- C4: with unspecified base date and time, the combined query issues its two
sub-fetches on the same resolved basis: identical base dates and base times
sharing the same two-digit hour, differing only in each schedule's fixed
minute (00 for the observation, 30 for the forecast). -/
theorem c4_combined_same_basis (clock : Clock) :
    (combined_issued_bases clock none none).1.1 =
      (combined_issued_bases clock none none).2.1 ∧
    ∃ hh, hh = pad2 clock.hour ∧
      (combined_issued_bases clock none none).1.2 = hh ++ "00" ∧
      (combined_issued_bases clock none none).2.2 = hh ++ "30" :=
  ⟨rfl, pad2 clock.hour, rfl, rfl, rfl⟩

/-- C5: when the observation fetch yields an envelope with 8 items and the
forecast fetch yields 12 items, the combined query — in either completion
order — returns a merged envelope with exactly 8 top-level items and the
12-item forecast list, all other envelope fields taken from the observation
response. -/
theorem c5_combined_merges (order : Bool) (p : UpstreamPayload RawObsItem)
    (q : UpstreamPayload RawFcstItem) (r : WeatherResponse) (f : List ForecastItem)
    (hp : get_ultra_short_term_ncst p = .ok r)
    (hf : get_ultra_short_term_fcst q = .ok f)
    (h8 : r.items.length = 8) (h12 : f.length = 12) :
    ∃ m, get_combined_weather order p q = .ok m ∧
      m.items.length = 8 ∧ m.forecast_items = some f ∧ f.length = 12 ∧
      m.items = r.items ∧ m.result_code = r.result_code ∧
      m.result_message = r.result_message ∧ m.num_of_rows = r.num_of_rows ∧
      m.page_no = r.page_no ∧ m.total_count = r.total_count := by
  refine ⟨{ r with forecast_items := some f }, ?_, h8, rfl, h12, rfl, rfl, rfl, rfl,
    rfl, rfl⟩
  cases order <;> simp [get_combined_weather, gatherResult, hp, hf]

/-- Witness for C5 at concrete 8-item observation and 12-item forecast
payloads, in the completion order where the forecast settles first. -/
theorem c5_combined_merges_witness :
    ∃ m, get_combined_weather true obs8Payload fcst12Payload = .ok m ∧
      m.items.length = 8 ∧
      m.forecast_items = some (List.map enrichFcstItem (List.replicate 12 fcstItemSKY)) ∧
      (List.map enrichFcstItem (List.replicate 12 fcstItemSKY)).length = 12 ∧
      m.items = obs8Response.items ∧ m.result_code = obs8Response.result_code ∧
      m.result_message = obs8Response.result_message ∧
      m.num_of_rows = obs8Response.num_of_rows ∧
      m.page_no = obs8Response.page_no ∧ m.total_count = obs8Response.total_count :=
  c5_combined_merges true obs8Payload fcst12Payload obs8Response
    (List.map enrichFcstItem (List.replicate 12 fcstItemSKY))
    rfl rfl rfl rfl

/-- C6: if either sub-call of the combined query fails, the combined query
fails with a failing sub-call's error — for either completion order — and no
partial merged envelope is returned. -/
theorem c6_combined_fails_on_subfailure (order : Bool)
    (p : UpstreamPayload RawObsItem) (q : UpstreamPayload RawFcstItem)
    (e : HTTPException)
    (h : get_ultra_short_term_ncst p = .error e ∨
         get_ultra_short_term_fcst q = .error e) :
    ∃ e2, get_combined_weather order p q = .error e2 ∧
      (get_ultra_short_term_ncst p = .error e2 ∨
       get_ultra_short_term_fcst q = .error e2) := by
  cases order with
  | false =>
    rcases h with h | h
    · exact ⟨e, by simp [get_combined_weather, gatherResult, h], Or.inl h⟩
    · cases hn : get_ultra_short_term_ncst p with
      | error e1 =>
        exact ⟨e1, by simp [get_combined_weather, gatherResult, hn], Or.inl rfl⟩
      | ok r =>
        exact ⟨e, by simp [get_combined_weather, gatherResult, hn, h], Or.inr h⟩
  | true =>
    rcases h with h | h
    · cases hq2 : get_ultra_short_term_fcst q with
      | error e1 =>
        exact ⟨e1, by simp [get_combined_weather, gatherResult, hq2], Or.inr rfl⟩
      | ok f =>
        exact ⟨e, by simp [get_combined_weather, gatherResult, hq2, h], Or.inl h⟩
    · exact ⟨e, by simp [get_combined_weather, gatherResult, h], Or.inr h⟩

/-- Witness for C6: a failing observation payload joined with a successful
forecast payload. -/
theorem c6_combined_fails_on_subfailure_witness :
    ∃ e2, get_combined_weather false errObsPayload fcst12Payload = .error e2 ∧
      (get_ultra_short_term_ncst errObsPayload = .error e2 ∨
       get_ultra_short_term_fcst fcst12Payload = .error e2) :=
  c6_combined_fails_on_subfailure false errObsPayload fcst12Payload
    ⟨502, apiErrorDetail "NO_DATA"⟩ (Or.inl rfl)

/-- C7: on a successful (`resultCode` "00") payload where `response.body.items`
or `response.body.items.item` is missing, normalization treats the item list
as empty: the observation call returns an envelope with zero items and the
forecast call returns an empty list, neither raising. -/
theorem c7_missing_items_empty
    (p : UpstreamPayload RawObsItem) (q : UpstreamPayload RawFcstItem)
    (hp00 : p.resultCode = "00") (hq00 : q.resultCode = "00")
    (hp : (p.bodyOf.bind UpstreamBody.items) = none ∨
          ((p.bodyOf.bind UpstreamBody.items).bind UpstreamItems.item) = none)
    (hq : (q.bodyOf.bind UpstreamBody.items) = none ∨
          ((q.bodyOf.bind UpstreamBody.items).bind UpstreamItems.item) = none) :
    (∃ r, get_ultra_short_term_ncst p = .ok r ∧ r.items = []) ∧
    get_ultra_short_term_fcst q = .ok [] := by
  have hpi : p.itemsData = [] := by
    rcases hp with h | h <;> simp [UpstreamPayload.itemsData, h]
  have hqi : q.itemsData = [] := by
    rcases hq with h | h <;> simp [UpstreamPayload.itemsData, h]
  constructor
  · refine ⟨{ result_code := "00", result_message := p.resultMsg,
              num_of_rows := ((p.bodyOf).bind UpstreamBody.numOfRows).getD 0,
              page_no := ((p.bodyOf).bind UpstreamBody.pageNo).getD 1,
              total_count := ((p.bodyOf).bind UpstreamBody.totalCount).getD 0,
              items := [] }, ?_, rfl⟩
    simp [get_ultra_short_term_ncst, hp00, hpi]
  · simp [get_ultra_short_term_fcst, hq00, hqi]

/-- Witness for C7 at concrete payloads with a missing `items` object and a
missing `item` list respectively. -/
theorem c7_missing_items_empty_witness :
    (∃ r, get_ultra_short_term_ncst emptyObsPayload = .ok r ∧ r.items = []) ∧
    get_ultra_short_term_fcst emptyFcstPayload = .ok [] :=
  c7_missing_items_empty emptyObsPayload emptyFcstPayload rfl rfl
    (Or.inl rfl) (Or.inr rfl)

/-- C8: for a category code having an enum-decode table, a raw value that is a
key of the table decodes to that table's (non-empty) description; any other
value yields an absent description; enrichment is the total function applying
exactly this decoding, and normalization still succeeds on any successful
payload. -/
theorem c8_enum_decode (c v : String) (tbl : List (String × String))
    (hc : List.lookup c CODE_VALUE_MAPPINGS = some tbl) :
    (∀ d, List.lookup v tbl = some d → valueDescriptionFor c v = some d ∧ d ≠ "") ∧
    (List.lookup v tbl = none → valueDescriptionFor c v = none) ∧
    (∀ r : RawObsItem,
      (enrichObsItem r).valueDescription = valueDescriptionFor r.category r.obsrValue) ∧
    (∀ p : UpstreamPayload RawObsItem, p.resultCode = "00" →
      ∃ rr, get_ultra_short_term_ncst p = .ok rr) := by
  have hmem := mem_of_lookup_eq_some hc
  refine ⟨?_, ?_, fun r => rfl, fun p h00 => ⟨_, ncst_ok_form p h00⟩⟩
  · intro d hd
    refine ⟨by simp [valueDescriptionFor, hc, hd], ?_⟩
    have hvals : ∀ e ∈ tbl, e.2 ≠ "" := by
      fin_cases hmem <;> decide
    exact hvals (v, d) (mem_of_lookup_eq_some hd)
  · intro hd
    simp [valueDescriptionFor, hc, hd]

/-- Witness for C8 at code "SKY" with value "1". -/
theorem c8_enum_decode_witness :
    (∀ d, List.lookup "1" [("1", "맑음"), ("3", "구름많음"), ("4", "흐림")] = some d →
      valueDescriptionFor "SKY" "1" = some d ∧ d ≠ "") ∧
    (List.lookup "1" [("1", "맑음"), ("3", "구름많음"), ("4", "흐림")] = none →
      valueDescriptionFor "SKY" "1" = none) ∧
    (∀ r : RawObsItem,
      (enrichObsItem r).valueDescription = valueDescriptionFor r.category r.obsrValue) ∧
    (∀ p : UpstreamPayload RawObsItem, p.resultCode = "00" →
      ∃ rr, get_ultra_short_term_ncst p = .ok rr) :=
  c8_enum_decode "SKY" "1" [("1", "맑음"), ("3", "구름많음"), ("4", "흐림")] rfl

/-- The five-item payload of the summary-reduction scenario: categories T1H,
REH, RN1, VEC and WSD with values 15.0, 70, 0, 270 and 3.5. -/
def summaryPayload : UpstreamPayload RawObsItem :=
  { response := some
      { header := some okHeader
        body := some
          { numOfRows := some 1000
            pageNo := some 1
            totalCount := some 5
            items := some
              { item := some
                  [{ category := "T1H", obsrValue := "15.0", baseDate := "20231110",
                     baseTime := "0600", nx := 55, ny := 127 },
                   { category := "REH", obsrValue := "70", baseDate := "20231110",
                     baseTime := "0600", nx := 55, ny := 127 },
                   { category := "RN1", obsrValue := "0", baseDate := "20231110",
                     baseTime := "0600", nx := 55, ny := 127 },
                   { category := "VEC", obsrValue := "270", baseDate := "20231110",
                     baseTime := "0600", nx := 55, ny := 127 },
                   { category := "WSD", obsrValue := "3.5", baseDate := "20231110",
                     baseTime := "0600", nx := 55, ny := 127 }] } } } }

/-- C9: on the observation payload whose items carry exactly T1H "15.0",
REH "70", RN1 "0", VEC "270" and WSD "3.5", the summary's five primary fields
equal those values and the raw category map contains all five codes, each
annotated with its description. -/
theorem c9_summary_reduction :
    get_weather_summary 55 127 none none ⟨"20231110", 6⟩ summaryPayload = .ok
      { location := "nx:55, ny:127", base_date := "20231110", base_time := "0600",
        temperature := some "15.0", humidity := some "70", precipitation := some "0",
        wind_direction := some "270", wind_speed := some "3.5",
        raw_data := some
          { total_count := 5
            categories := [("T1H", "15.0", "기온"), ("REH", "70", "습도"),
                           ("RN1", "0", "1시간 강수량"), ("VEC", "270", "풍향"),
                           ("WSD", "3.5", "풍속")] } } := by
  rfl

/-- Looking a key up after a dict assignment: the assigned key maps to the new
value, every other key is untouched. -/
theorem lookup_dictInsert (d : List (String × String)) (k v c : String) :
    List.lookup c (dictInsert d k v) = if c = k then some v else List.lookup c d := by
  induction d with
  | nil =>
    by_cases hc : c = k
    · subst hc; simp [dictInsert]
    · have hb : (c == k) = false := by simpa using hc
      simp [dictInsert, List.lookup_cons, hb, hc]
  | cons hd tl ih =>
    obtain ⟨k1, v1⟩ := hd
    simp only [dictInsert]
    by_cases hk : k1 = k
    · rw [if_pos hk]
      subst hk
      by_cases hc : c = k1
      · subst hc; simp [List.lookup_cons]
      · have hb : (c == k1) = false := by simpa using hc
        simp [List.lookup_cons, hb, hc]
    · rw [if_neg hk]
      by_cases hc : c = k1
      · subst hc
        simp [List.lookup_cons, if_neg hk]
      · have hb : (c == k1) = false := by simpa using hc
        rw [List.lookup_cons, List.lookup_cons]
        simp only [hb]
        exact ih

/-- Looking a category up in the dict folded from the item list yields the
last matching item's observed value, falling back to the initial dict. -/
theorem lookup_weatherData_aux (l : List WeatherItem) (d : List (String × String))
    (c : String) :
    List.lookup c (l.foldl (fun acc it => dictInsert acc it.category it.obsrValue) d) =
      ((l.filter (fun it => it.category == c)).getLast?).elim (List.lookup c d)
        (fun it => some it.obsrValue) := by
  induction l generalizing d with
  | nil => simp
  | cons it rest ih =>
    rw [List.foldl_cons, ih]
    by_cases hcat : it.category = c
    · rw [List.filter_cons_of_pos (by simpa using hcat)]
      cases hrl : rest.filter (fun it2 => it2.category == c) with
      | nil =>
        simp [lookup_dictInsert, hcat]
      | cons x xs =>
        rw [List.getLast?_cons_cons]
        cases hgl : (x :: xs).getLast? with
        | none =>
          exact absurd (List.getLast?_eq_none_iff.mp hgl) (List.cons_ne_nil x xs)
        | some y => simp [hgl]
    · rw [List.filter_cons_of_neg (by simpa using hcat)]
      rw [lookup_dictInsert]
      have hne : ¬ c = it.category := fun h => hcat h.symm
      rw [if_neg hne]

/-- C10: when the item sequence holds more than one item with the same
category code, the summary maps that code — in the primary fields and in the
raw category map alike — to the observed value of the last such item, while
the representative base date and time still come from the first item of the
sequence. -/
theorem c10_summary_last_wins (nx ny : Int) (bd bt : Option String) (clock : Clock)
    (p : UpstreamPayload RawObsItem) (s : WeatherSummary) (c : String)
    (hs : get_weather_summary nx ny bd bt clock p = .ok s)
    (hdup : 2 ≤ (p.itemsData.map enrichObsItem).countP (fun it => it.category == c)) :
    ∃ last first,
      ((p.itemsData.map enrichObsItem).filter
          (fun it => it.category == c)).getLast? = some last ∧
      (p.itemsData.map enrichObsItem).head? = some first ∧
      (∃ rd, s.raw_data = some rd ∧
        (c, last.obsrValue, (List.lookup c WEATHER_CATEGORY_MAP).getD c) ∈ rd.categories) ∧
      (c = "T1H" → s.temperature = some last.obsrValue) ∧
      (c = "REH" → s.humidity = some last.obsrValue) ∧
      (c = "RN1" → s.precipitation = some last.obsrValue) ∧
      (c = "VEC" → s.wind_direction = some last.obsrValue) ∧
      (c = "WSD" → s.wind_speed = some last.obsrValue) ∧
      s.base_date = first.baseDate ∧ s.base_time = first.baseTime := by
  by_cases h00 : p.resultCode = "00"
  case neg =>
    exfalso
    have herr : get_ultra_short_term_ncst p =
        .error ⟨502, apiErrorDetail p.resultMsg⟩ := by
      simp [get_ultra_short_term_ncst, h00]
    rw [get_weather_summary, herr] at hs
    exact Except.noConfusion hs
  case pos =>
  have hn := ncst_ok_form p h00
  rw [get_weather_summary, hn] at hs
  rw [Except.ok.injEq] at hs
  subst hs
  have hcount : 2 ≤ ((p.itemsData.map enrichObsItem).filter
      (fun it => it.category == c)).length := by
    rwa [← List.countP_eq_length_filter]
  have hfilterne : (p.itemsData.map enrichObsItem).filter
      (fun it => it.category == c) ≠ [] := by
    intro h
    rw [h] at hcount
    simp at hcount
  obtain ⟨last, hlast⟩ : ∃ y, ((p.itemsData.map enrichObsItem).filter
      (fun it => it.category == c)).getLast? = some y := by
    cases hgl : ((p.itemsData.map enrichObsItem).filter
        (fun it => it.category == c)).getLast? with
    | none => exact absurd (List.getLast?_eq_none_iff.mp hgl) hfilterne
    | some y => exact ⟨y, rfl⟩
  have hlne : p.itemsData.map enrichObsItem ≠ [] := by
    intro h
    apply hfilterne
    rw [h]
    rfl
  obtain ⟨first, hfirst⟩ : ∃ a, (p.itemsData.map enrichObsItem).head? = some a := by
    cases hl : p.itemsData.map enrichObsItem with
    | nil => exact absurd hl hlne
    | cons a t => exact ⟨a, rfl⟩
  have hwd : List.lookup c (weatherData (p.itemsData.map enrichObsItem)) =
      some last.obsrValue := by
    rw [weatherData, lookup_weatherData_aux, hlast]
    rfl
  refine ⟨last, first, hlast, hfirst, ⟨_, rfl, ?_⟩, ?_, ?_, ?_, ?_, ?_, ?_, ?_⟩
  · exact List.mem_map_of_mem _ (mem_of_lookup_eq_some hwd)
  · intro hc; subst hc; exact hwd
  · intro hc; subst hc; exact hwd
  · intro hc; subst hc; exact hwd
  · intro hc; subst hc; exact hwd
  · intro hc; subst hc; exact hwd
  · show (match (p.itemsData.map enrichObsItem).head? with
      | some it => it.baseDate
      | none => pyOrStr bd clock.date) = first.baseDate
    rw [hfirst]
  · show (match (p.itemsData.map enrichObsItem).head? with
      | some it => it.baseTime
      | none => pyOrStr bt (pad2 clock.hour ++ "00")) = first.baseTime
    rw [hfirst]

/-- A successful observation payload carrying two T1H items with different
values and base times. -/
def dupObsPayload : UpstreamPayload RawObsItem :=
  { response := some
      { header := some okHeader
        body := some
          { numOfRows := some 2
            pageNo := some 1
            totalCount := some 2
            items := some
              { item := some
                  [{ category := "T1H", obsrValue := "15.0", baseDate := "20231110",
                     baseTime := "0500", nx := 55, ny := 127 },
                   { category := "T1H", obsrValue := "16.0", baseDate := "20231110",
                     baseTime := "0600", nx := 55, ny := 127 }] } } } }

/-- The summary `dupObsPayload` reduces to: the last T1H value wins, the first
item's base date/time is representative. -/
def dupSummary : WeatherSummary :=
  { location := "nx:55, ny:127", base_date := "20231110", base_time := "0500",
    temperature := some "16.0", humidity := none, precipitation := none,
    wind_direction := none, wind_speed := none,
    raw_data := some { total_count := 2, categories := [("T1H", "16.0", "기온")] } }

/-- Witness for C10 at a concrete payload with two T1H items. -/
theorem c10_summary_last_wins_witness :
    ∃ last first,
      ((dupObsPayload.itemsData.map enrichObsItem).filter
          (fun it => it.category == "T1H")).getLast? = some last ∧
      (dupObsPayload.itemsData.map enrichObsItem).head? = some first ∧
      (∃ rd, dupSummary.raw_data = some rd ∧
        ("T1H", last.obsrValue,
          (List.lookup "T1H" WEATHER_CATEGORY_MAP).getD "T1H") ∈ rd.categories) ∧
      ("T1H" = "T1H" → dupSummary.temperature = some last.obsrValue) ∧
      ("T1H" = "REH" → dupSummary.humidity = some last.obsrValue) ∧
      ("T1H" = "RN1" → dupSummary.precipitation = some last.obsrValue) ∧
      ("T1H" = "VEC" → dupSummary.wind_direction = some last.obsrValue) ∧
      ("T1H" = "WSD" → dupSummary.wind_speed = some last.obsrValue) ∧
      dupSummary.base_date = first.baseDate ∧ dupSummary.base_time = first.baseTime :=
  c10_summary_last_wins 55 127 none none ⟨"20231110", 6⟩ dupObsPayload dupSummary
    "T1H" rfl (by decide)

end BecoLab
